import Mathlib

/-
Verification development for the commit-critic repository.

We give a shallow embedding of the deterministic parts of the program:
the interactive approval workflow of `run_write` (cli.py), the git tool
wrappers (tools.py), the score-to-category mapping stated in the analysis
rubric (prompts.py, models.py), the thread-store operations
(commit_critic_agent.py) and the CLI entry point `main` (cli.py).
External effects (the LLM agent, subprocesses, sqlite) are modelled by
explicit parameters: a subprocess call becomes a function argument giving
its outcome, and each result records whether a subprocess was invoked.
-/

namespace CommitCritic

/- Python string primitives.  `str.strip()` removes leading and trailing
whitespace; we model the ASCII whitespace characters Python strips
(space, tab, newline, carriage return, vertical tab, form feed).
`str.lower()` is modelled by `Char.toLower`, which agrees with Python on
ASCII input. -/

def isPyWs (c : Char) : Bool :=
  c = ' ' || c = '\t' || c = '\n' || c = '\r' || c = '\x0b' || c = '\x0c'

def pyStrip (s : String) : String :=
  ⟨((s.data.dropWhile isPyWs).reverse.dropWhile isPyWs).reverse⟩

def pyLower (s : String) : String :=
  ⟨s.data.map Char.toLower⟩

/-- Python slicing `s[:n]`, by characters. -/
def strTake (s : String) (n : Nat) : String :=
  ⟨s.data.take n⟩

/-- Python `s.startswith(p)`. -/
def strStartsWith (s p : String) : Bool :=
  p.data.isPrefixOf s.data

/-- Python `s.split('\n')` on the character list: one piece per
newline-separated segment (n newlines give n+1 pieces). -/
def splitNl : List Char → List (List Char)
  | [] => [[]]
  | c :: rest =>
    match splitNl rest with
    | [] => [[c]]
    | h :: t => if c = '\n' then [] :: h :: t else (c :: h) :: t

/- ===================================================================
   Approval workflow of `run_write` (cli.py lines 183-245).

   After the agent presents a suggested commit message, the CLI reads
   `user_input = input("> ").strip()` and branches on
   `user_input.lower()`.  Each branch may send further instructions to
   the agent via `continue_conversation`; the only instructions that
   execute a commit are the three "execute" messages.  We record the
   outcome and the list of commit-executing instructions issued, each
   tagged with the message source, plus how many revision requests were
   sent to the Composer.
   =================================================================== -/

/-- Terminal outcome of the approval workflow. -/
inductive Outcome where
  | Accepted
  | Cancelled
deriving DecidableEq, Repr

/-- Which message a commit-executing instruction carries: the suggested
message, the revised message (both live in the agent conversation), or a
literal custom string typed by the user. -/
inductive CommitSource where
  | suggested
  | revised
  | custom (msg : String)
deriving DecidableEq, Repr

/-- Result of one pass through the approval workflow: the outcome, the
commit-executing instructions issued (in order), and the number of
revision requests sent to the Composer. -/
structure WriteResult where
  outcome : Outcome
  commits : List CommitSource
  reviseCalls : Nat
deriving DecidableEq, Repr

/-- cli.py line 185: accepted inputs (after strip and lower). -/
def acceptSet : List String := ["", "y", "yes", "accept"]

/-- cli.py line 198: cancel inputs. -/
def cancelSet : List String := ["n", "no", "cancel", "q", "quit"]

/-- cli.py line 200: revise inputs. -/
def reviseSet : List String := ["r", "revise", "feedback"]

/-- cli.py line 228: custom-message inputs. -/
def customSet : List String := ["c", "custom"]

/-- cli.py line 217: confirmation inputs accepted after a revision. -/
def confirmYesSet : List String := ["", "y", "yes"]

/-- The interactive tail of `run_write` (cli.py lines 183-245), as a
function of the four strings the user may type: the menu choice, the
revision feedback, the post-revision confirmation, and the custom
message.  Inputs that a branch never reads are simply ignored, matching
the source, where `input()` is only called on the branch that needs it.
The feedback text is interpolated into a revision instruction, which is
not commit-executing, so it does not appear in the trace. -/
def run_write (userInput feedbackText confirmInput customInput : String) :
    WriteResult :=
  if pyLower (pyStrip userInput) ∈ acceptSet then
    -- lines 185-197: execute with the suggested message, once
    ⟨.Accepted, [.suggested], 0⟩
  else if pyLower (pyStrip userInput) ∈ cancelSet then
    -- lines 198-199: cancelled, nothing sent
    ⟨.Cancelled, [], 0⟩
  else if pyLower (pyStrip userInput) ∈ reviseSet then
    -- lines 200-227: one revision request, then a yes/no confirmation
    if pyLower (pyStrip confirmInput) ∈ confirmYesSet then
      ⟨.Accepted, [.revised], 1⟩
    else
      ⟨.Cancelled, [], 1⟩
  else if pyLower (pyStrip userInput) ∈ customSet then
    -- lines 228-243: the custom message is stripped; empty cancels
    if pyStrip customInput = "" then
      ⟨.Cancelled, [], 0⟩
    else
      ⟨.Accepted, [.custom (pyStrip customInput)], 0⟩
  else
    -- lines 244-245: unknown option cancels
    ⟨.Cancelled, [], 0⟩

/- ===================================================================
   Git tools (tools.py).
   =================================================================== -/

/-- One record produced by the fixed git log format
`%H%x1f%s%x1f%b%x00`: full hash, subject line, body. -/
structure RawCommit where
  hash : String
  subject : String
  body : String
deriving DecidableEq, Repr

/-- A parsed commit as returned by `get_commits_tool`: 8-character short
hash, stripped subject, stripped body. -/
structure Commit where
  hash : String
  message : String
  body : String
deriving DecidableEq, Repr

/-- Abstraction of `git log -n limit`: the repository is the full list of
commits, most recent first, and git returns at most `n` of them.  Field
splitting cannot change the record count, so the parse below is a map. -/
def git_log (repo : List RawCommit) (n : Nat) : List RawCommit :=
  repo.take n

/-- Parsing of one log record by `get_commits_tool` (tools.py lines
52-65): `parts[0][:8]`, `parts[1].strip()`, `parts[2].strip()`. -/
def parseCommit (rc : RawCommit) : Commit :=
  ⟨strTake rc.hash 8, pyStrip rc.subject, pyStrip rc.body⟩

/-- `get_commits_tool` (tools.py lines 21-67).  The limit is clamped by
`limit = max(1, min(int(limit), 500))` (line 38) before being passed to
`git log -n`. -/
def get_commits (repo : List RawCommit) (limit : Int) : List Commit :=
  (git_log repo (max 1 (min limit 500)).toNat).map parseCommit

/-- Outcome of a subprocess invocation, as seen by the tool wrappers. -/
inductive SubprocOutcome where
  | ok (stdout : String)
  | err (stderr : String)
deriving DecidableEq, Repr

/-- Outcome of the clone subprocess, which alone has a 60-second
timeout (tools.py line 127). -/
inductive CloneOutcome where
  | ok (stdout : String)
  | err (stderr : String)
  | timedOut
deriving DecidableEq, Repr

/-- Result record of `clone_repo_tool`.  `subprocessCalled` records
whether `subprocess.run` was reached at all. -/
structure CloneResult where
  success : Bool
  repo_path : Option String
  message : Option String
  error : Option String
  subprocessCalled : Bool
deriving DecidableEq, Repr

def emptyUrlErr : String := "Empty URL provided"

def invalidProtocolErr : String :=
  "Invalid URL protocol. Use https://, http://, git://, or git@ URLs"

def schemeHttps : String := "https://"
def schemeHttp : String := "http://"
def schemeGit : String := "git://"
def schemeGitAt : String := "git@"

def cloneTimeoutErr : String :=
  "Clone timed out after 60 seconds. Repository may be too large or network is slow."

/-- `clone_repo_tool` (tools.py lines 81-153).  The url is stripped
(line 101); an empty url or a url whose scheme is not https/http/git/git@
yields a structured error before any subprocess runs (lines 102-116).
Otherwise `git clone` runs; its outcome and the fresh temp directory are
parameters. -/
def clone_repo (url : String) (gitClone : String → CloneOutcome)
    (tempDir : String) : CloneResult :=
  if pyStrip url = "" then
    ⟨false, none, none, some emptyUrlErr, false⟩
  else if ¬(strStartsWith (pyStrip url) schemeHttps ||
      strStartsWith (pyStrip url) schemeHttp ||
      strStartsWith (pyStrip url) schemeGit ||
      strStartsWith (pyStrip url) schemeGitAt) then
    ⟨false, none, none, some invalidProtocolErr, false⟩
  else
    match gitClone (pyStrip url) with
    | .ok _ =>
        ⟨true, some tempDir,
          some ("Successfully cloned " ++ pyStrip url ++ " to " ++ tempDir),
          none, true⟩
    | .err e => ⟨false, none, none, some ("Clone failed: " ++ e), true⟩
    | .timedOut => ⟨false, none, none, some cloneTimeoutErr, true⟩

/-- Result record of `get_staged_diff_tool`; a `none` field corresponds
to a key absent from the returned JSON object. -/
structure StagedDiffResult where
  has_staged : Bool
  stat : Option String
  diff : Option String
  files : Option (List String)
  file_count : Option Nat
  message : Option String
deriving DecidableEq, Repr

def noStagedMsg : String :=
  "No staged changes found. Stage files with \x27git add\x27 first."

/-- tools.py line 198: `[f for f in files_result.stdout.strip().split('\n') if f]`. -/
def staged_files (nameOnlyOut : String) : List String :=
  ((splitNl (pyStrip nameOnlyOut).data).map (fun l => (⟨l⟩ : String))).filter
    (fun f => f != "")

/-- `get_staged_diff_tool` (tools.py lines 156-223), as a function of the
stdout of the three diff subprocesses (stat, full diff, name-only).
With no staged files it returns only `has_staged=false` and a guidance
message (lines 200-204); otherwise the diff is truncated to 5000
characters (line 209). -/
def get_staged_diff (statOut diffOut nameOnlyOut : String) :
    StagedDiffResult :=
  if staged_files nameOnlyOut = [] then
    ⟨false, none, none, none, none, some noStagedMsg⟩
  else
    ⟨true, some statOut, some (strTake diffOut 5000),
      some (staged_files nameOnlyOut),
      some (staged_files nameOnlyOut).length, none⟩

/-- Result record of `create_commit_tool`.  `committedMessage` records
the string passed to `git commit -m`, `none` when no subprocess ran. -/
structure CommitResult where
  success : Bool
  output : Option String
  message : Option String
  error : Option String
  committedMessage : Option String
deriving DecidableEq, Repr

def emptyCommitMsgErr : String := "Empty commit message provided"

/-- `create_commit_tool` (tools.py lines 226-275).  Line 246:
`message = message.strip() if message else ""` (an empty string strips to
itself, so this is `pyStrip`); a blank message yields an error with no
subprocess (lines 247-251); otherwise `git commit -m message` runs with
the stripped message (line 254), whose outcome is a parameter. -/
def create_commit (message : String) (gitCommit : String → SubprocOutcome) :
    CommitResult :=
  if pyStrip message = "" then
    ⟨false, none, none, some emptyCommitMsgErr, none⟩
  else
    match gitCommit (pyStrip message) with
    | .ok out =>
        ⟨true, some out,
          some ("Successfully committed: " ++ strTake (pyStrip message) 50 ++ "..."),
          none, some (pyStrip message)⟩
    | .err e =>
        ⟨false, none, none, some ("Commit failed: " ++ e), some (pyStrip message)⟩

/- ===================================================================
   Score-to-category mapping (prompts.py CATEGORY MAPPING, models.py
   CommitAnalysis.category).
   =================================================================== -/

/-- The three commit categories of `CommitAnalysis.category`. -/
inductive Category where
  | needs_work
  | acceptable
  | excellent
deriving DecidableEq, Repr

/-- The score-to-category mapping stated in prompts.py (CATEGORY
MAPPING: 1-3 needs_work, 4-6 acceptable, 7-10 excellent) and in
models.py's `CommitAnalysis.category` field description.  Scores outside
1..10 are rejected by the model's `ge=1, le=10` bound, hence `none`. -/
def category (score : Nat) : Option Category :=
  if 1 ≤ score ∧ score ≤ 3 then some .needs_work
  else if 4 ≤ score ∧ score ≤ 6 then some .acceptable
  else if 7 ≤ score ∧ score ≤ 10 then some .excellent
  else none

/- ===================================================================
   Thread management (commit_critic_agent.py lines 301-390).

   The sqlite checkpoint database is modelled as the list of rows of its
   `checkpoints` table; each thread contributes one row per checkpoint,
   so one `thread_id` may appear in several rows (`list_threads` uses
   SELECT DISTINCT for exactly this reason).
   =================================================================== -/

/-- One row of the `checkpoints` table. -/
structure CheckpointRow where
  thread_id : String
  checkpoint_id : String
deriving DecidableEq, Repr

/-- `list_threads` in sqlite mode (commit_critic_agent.py lines 301-327):
`SELECT DISTINCT thread_id FROM checkpoints`. -/
def list_threads (db : List CheckpointRow) : List String :=
  (db.map (fun r => r.thread_id)).eraseDups

/-- `clear_thread` in sqlite mode (lines 330-359):
`DELETE FROM checkpoints WHERE thread_id = ?`, then
`cursor.rowcount > 0`.  Returns the new table and that boolean. -/
def clear_thread (db : List CheckpointRow) (tid : String) :
    List CheckpointRow × Bool :=
  let remaining := db.filter (fun r => r.thread_id != tid)
  (remaining, remaining.length < db.length)

/-- `clear_all_threads` in sqlite mode (lines 361-390):
`DELETE FROM checkpoints`, then returns `cursor.rowcount`, the number of
deleted rows of the `checkpoints` table. -/
def clear_all_threads (db : List CheckpointRow) : List CheckpointRow × Nat :=
  ([], db.length)

/-- Number of distinct threads stored in the table. -/
def threadCount (db : List CheckpointRow) : Nat :=
  (list_threads db).length

def memoryModeSentinel : String :=
  "(in-memory threads not listable - install langgraph-checkpoint-sqlite)"

/-- `list_threads` when `SQLITE_AVAILABLE` is false (lines 309-311):
returns a one-element placeholder list. -/
def list_threads_memory : List String := [memoryModeSentinel]

/-- `clear_thread` when `SQLITE_AVAILABLE` is false (lines 341-342). -/
def clear_thread_memory : Bool := false

/-- `clear_all_threads` when `SQLITE_AVAILABLE` is false (lines 369-372):
resets the in-memory saver and returns 1. -/
def clear_all_threads_memory : Nat := 1

/- ===================================================================
   CLI entry point `main` (cli.py lines 308-400).
   =================================================================== -/

/-- The boolean/option arguments of the CLI relevant to control flow. -/
structure Args where
  threads : Bool
  clear_threads : Bool
  analyze : Bool
  write : Bool
  thread : Option String
deriving DecidableEq, Repr

/-- The top-level operation `main` performs before exiting, if any. -/
inductive MainAction where
  | listThreads
  | clearThreads (thread : Option String)
  | analyze
  | write
  | help
deriving DecidableEq, Repr

/-- Observable result of `main`: exit code, the action performed
(`none` when it aborts on the missing key before doing anything), and
whether the agent framework was invoked. -/
structure MainResult where
  exitCode : Nat
  action : Option MainAction
  agentInvoked : Bool
deriving DecidableEq, Repr

/-- `main` (cli.py lines 371-400).  Thread management is handled first
and exits 0 without touching the key (lines 374-380); the API key is
checked next, exiting 1 (lines 383-386); then `--analyze` or `--write`
runs the agent and returns normally (exit 0), and with neither flag the
help text prints and the process exits 1 (lines 393-400). -/
def cli_main (args : Args) (apiKeyPresent : Bool) : MainResult :=
  if args.threads then
    ⟨0, some .listThreads, false⟩
  else if args.clear_threads then
    ⟨0, some (.clearThreads args.thread), false⟩
  else if !apiKeyPresent then
    ⟨1, none, false⟩
  else if args.analyze then
    ⟨0, some .analyze, true⟩
  else if args.write then
    ⟨0, some .write, true⟩
  else
    ⟨1, some .help, false⟩

/- ===================================================================
   Theorems.
   =================================================================== -/

/-- Every result of the approval workflow is one of five shapes; in
particular the commit trace is empty exactly on `Cancelled` and a
singleton exactly on `Accepted`. -/
theorem run_write_shapes (ui f c m : String) :
    run_write ui f c m = ⟨.Accepted, [.suggested], 0⟩ ∨
    run_write ui f c m = ⟨.Accepted, [.revised], 1⟩ ∨
    run_write ui f c m = ⟨.Accepted, [.custom (pyStrip m)], 0⟩ ∨
    run_write ui f c m = ⟨.Cancelled, [], 0⟩ ∨
    run_write ui f c m = ⟨.Cancelled, [], 1⟩ := by
  unfold run_write
  split_ifs <;> simp

/-- C1: the commit-executing operation is reachable only through the
Accepted transition: whenever the workflow ends Cancelled no
commit-executing instruction was issued, and whenever one was issued the
workflow ended Accepted and the input was an explicit affirmative — a
member of the accept set, a revise request confirmed with a yes, or a
custom message that is non-empty after stripping. -/
theorem commit_only_via_accept (ui f c m : String) :
    ((run_write ui f c m).outcome = .Cancelled →
      (run_write ui f c m).commits = []) ∧
    ((run_write ui f c m).commits ≠ [] →
      (run_write ui f c m).outcome = .Accepted ∧
      (pyLower (pyStrip ui) ∈ acceptSet ∨
        (pyLower (pyStrip ui) ∈ reviseSet ∧
          pyLower (pyStrip c) ∈ confirmYesSet) ∨
        (pyLower (pyStrip ui) ∈ customSet ∧ pyStrip m ≠ ""))) := by
  unfold run_write
  split_ifs <;> simp_all

/-- C1 witness: the cancel input "n" issues no commit instruction, and
the accept input "y" ends Accepted. -/
theorem commit_only_via_accept_witness :
    (run_write ("n") ("") ("") ("")).commits = [] ∧
    (run_write ("y") ("") ("") ("")).outcome = .Accepted :=
  ⟨(commit_only_via_accept ("n") ("") ("") ("")).1 (by decide),
    ((commit_only_via_accept ("y") ("") ("") ("")).2 (by decide)).1⟩

/-- C2: from the presented suggestion, each input in
{"", "y", "yes", "accept"} routes to Accepted with exactly one commit
execution; each input in {"n", "no", "cancel", "q", "quit"} and every
unrecognized input routes to Cancelled with no commit execution; in
general an Accepted outcome issues exactly one commit instruction and a
Cancelled outcome issues none. -/
theorem approval_routing (ui f c m : String) :
    (ui ∈ acceptSet → run_write ui f c m = ⟨.Accepted, [.suggested], 0⟩) ∧
    (ui ∈ cancelSet → run_write ui f c m = ⟨.Cancelled, [], 0⟩) ∧
    (pyLower (pyStrip ui) ∉ acceptSet ++ cancelSet ++ reviseSet ++ customSet →
      run_write ui f c m = ⟨.Cancelled, [], 0⟩) ∧
    ((run_write ui f c m).outcome = .Accepted →
      (run_write ui f c m).commits.length = 1) ∧
    ((run_write ui f c m).outcome = .Cancelled →
      (run_write ui f c m).commits = []) := by
  refine ⟨?_, ?_, ?_, ?_, ?_⟩
  · intro h
    simp only [acceptSet, List.mem_cons, List.not_mem_nil, or_false] at h
    rcases h with rfl | rfl | rfl | rfl <;> rfl
  · intro h
    simp only [cancelSet, List.mem_cons, List.not_mem_nil, or_false] at h
    rcases h with rfl | rfl | rfl | rfl | rfl <;> rfl
  · intro h
    simp only [List.mem_append, not_or] at h
    obtain ⟨⟨⟨h1, h2⟩, h3⟩, h4⟩ := h
    simp [run_write, h1, h2, h3, h4]
  · unfold run_write
    split_ifs <;> simp
  · unfold run_write
    split_ifs <;> simp

/-- C2 witness: "y" accepts with one commit instruction and the
unrecognized input "blah" cancels with none. -/
theorem approval_routing_witness :
    run_write ("y") ("") ("") ("") = ⟨.Accepted, [.suggested], 0⟩ ∧
    run_write ("blah") ("") ("") ("") = ⟨.Cancelled, [], 0⟩ :=
  ⟨(approval_routing ("y") ("") ("") ("")).1 (by decide),
    (approval_routing ("blah") ("") ("") ("")).2.2.1 (by decide)⟩

/-- C3 counterexample: the claim says non-empty supplied custom text
reaches Accepted with the literal string passed on unmodified.  The
code strips the custom input: the non-empty input " " routes to
Cancelled, and the input " docs: fix typo " is forwarded as the
different string "docs: fix typo". -/
theorem custom_literal_cex :
    ((" ") ≠ ("") ∧ run_write ("c") ("") ("") (" ") = ⟨.Cancelled, [], 0⟩) ∧
    (run_write ("c") ("") ("") (" docs: fix typo ") =
        ⟨.Accepted, [.custom ("docs: fix typo")], 0⟩ ∧
      ("docs: fix typo") ≠ (" docs: fix typo ")) := by
  decide

/-- C3 amended: when the user selects the custom option, the supplied
text is stripped of leading and trailing whitespace; if the stripped
text is non-empty the workflow reaches Accepted and the stripped text is
the commit message forwarded, with no Composer revision call; if the
stripped text is empty (so also for whitespace-only input) the workflow
routes to Cancelled and no commit instruction is issued.  The literal
text is preserved exactly when it carries no surrounding whitespace. -/
theorem custom_path_stripped (ui f c m : String)
    (h : pyLower (pyStrip ui) ∈ customSet) :
    (pyStrip m = "" → run_write ui f c m = ⟨.Cancelled, [], 0⟩) ∧
    (pyStrip m ≠ "" →
      run_write ui f c m = ⟨.Accepted, [.custom (pyStrip m)], 0⟩) := by
  have h' : pyLower (pyStrip ui) = "c" ∨ pyLower (pyStrip ui) = "custom" := by
    simpa [customSet] using h
  constructor <;> intro hm <;> rcases h' with h' | h' <;>
    simp [run_write, h', hm, acceptSet, cancelSet, reviseSet, customSet]

/-- C3 witness: the custom message "docs: fix typo" is forwarded
verbatim. -/
theorem custom_path_stripped_witness :
    run_write ("c") ("") ("") ("docs: fix typo") =
      ⟨.Accepted, [.custom ("docs: fix typo")], 0⟩ :=
  (custom_path_stripped ("c") ("") ("") ("docs: fix typo")
    (by decide)).2 (by decide)

/-- C4: over scores 1..10 the category is needs_work exactly on 1..3,
acceptable exactly on 4..6, excellent exactly on 7..10; the mapping is
total on 1..10 and the three ranges are pairwise disjoint. -/
theorem category_partition (s : Nat) (h1 : 1 ≤ s) (h2 : s ≤ 10) :
    (category s = some .needs_work ↔ 1 ≤ s ∧ s ≤ 3) ∧
    (category s = some .acceptable ↔ 4 ≤ s ∧ s ≤ 6) ∧
    (category s = some .excellent ↔ 7 ≤ s ∧ s ≤ 10) ∧
    (category s).isSome = true ∧
    ¬((1 ≤ s ∧ s ≤ 3) ∧ (4 ≤ s ∧ s ≤ 6)) ∧
    ¬((4 ≤ s ∧ s ≤ 6) ∧ (7 ≤ s ∧ s ≤ 10)) ∧
    ¬((1 ≤ s ∧ s ≤ 3) ∧ (7 ≤ s ∧ s ≤ 10)) := by
  interval_cases s <;> decide

/-- C4 witness: score 5 is acceptable. -/
theorem category_partition_witness :
    category 5 = some .acceptable :=
  ((category_partition 5 (by decide) (by decide)).2.1).mpr (by decide)

/-- C5: `get_commits` never returns more than 500 commits for any
integer limit, and every limit at most 0 behaves exactly like limit 1. -/
theorem get_commits_clamped (repo : List RawCommit) (limit : Int) :
    (get_commits repo limit).length ≤ 500 ∧
    (limit ≤ 0 → get_commits repo limit = get_commits repo 1) := by
  constructor
  · have hle : (max 1 (min limit 500)).toNat ≤ 500 := by omega
    calc (get_commits repo limit).length
        ≤ (max 1 (min limit 500)).toNat := by
          simp [get_commits, git_log]
      _ ≤ 500 := hle
  · intro h
    have : (max 1 (min limit 500)).toNat = (max 1 (min (1 : Int) 500)).toNat := by
      omega
    simp [get_commits, git_log, this]

/-- C5 witness: a negative limit returns the same commits as limit 1. -/
theorem get_commits_clamped_witness :
    get_commits [⟨("abcdefghij"), ("m"), ("")⟩] (-5) =
      get_commits [⟨("abcdefghij"), ("m"), ("")⟩] 1 :=
  (get_commits_clamped [⟨("abcdefghij"), ("m"), ("")⟩] (-5)).2 (by decide)

/-- C6: any url that, after stripping, starts with none of https://,
http://, git://, git@ — the empty url included — produces a structured
error result from `clone_repo`, with no subprocess invoked. -/
theorem clone_repo_rejects_bad_scheme (url : String)
    (g : String → CloneOutcome) (d : String)
    (h : ¬(strStartsWith (pyStrip url) schemeHttps ||
        strStartsWith (pyStrip url) schemeHttp ||
        strStartsWith (pyStrip url) schemeGit ||
        strStartsWith (pyStrip url) schemeGitAt) = true) :
    (clone_repo url g d).success = false ∧
    (clone_repo url g d).subprocessCalled = false ∧
    (clone_repo url g d).error.isSome = true := by
  by_cases he : pyStrip url = "" <;> simp [clone_repo, he, h]

/-- C6 witness: the ftp url is rejected without a subprocess call. -/
theorem clone_repo_rejects_bad_scheme_witness :
    (clone_repo ("ftp://example.com/x") (fun _ => .ok ("")) ("/tmp/c")).success
        = false ∧
    (clone_repo ("ftp://example.com/x") (fun _ =>
        .ok ("")) ("/tmp/c")).subprocessCalled = false ∧
    (clone_repo ("ftp://example.com/x") (fun _ =>
        .ok ("")) ("/tmp/c")).error.isSome = true :=
  clone_repo_rejects_bad_scheme ("ftp://example.com/x") (fun _ => .ok (""))
    ("/tmp/c") (by decide)

/-- C7: with zero staged files the name-only diff output is empty and
`get_staged_diff` returns `has_staged = false` with only the guidance
message set: stat, diff, files and file_count are all absent, whatever
the other two subprocess outputs are. -/
theorem get_staged_diff_no_staged (statOut diffOut : String) :
    get_staged_diff statOut diffOut ("") =
      ⟨false, none, none, none, none, some noStagedMsg⟩ := rfl

/-- C8: `clear_all_threads` empties the checkpoints table but returns
`cursor.rowcount`, the number of checkpoint rows deleted, not the number
of threads: on a table holding two checkpoint rows of one single thread
it returns 2 while only 1 thread existed, contradicting its docstring
"Returns: Number of threads cleared". -/
theorem clear_all_threads_rowcount :
    clear_all_threads [⟨("t1"), ("c1")⟩, ⟨("t1"), ("c2")⟩] = ([], 2) ∧
    threadCount [⟨("t1"), ("c1")⟩, ⟨("t1"), ("c2")⟩] = 1 ∧
    list_threads_memory.length = 1 ∧
    clear_thread_memory = false ∧
    clear_all_threads_memory = 1 := by
  decide

/-- C9: the CLI exits 0 on the threads and clear-threads paths without
consulting the API key; it exits 1 when the key is missing before any
agent work, and exits 1 when neither analyze nor write was requested;
the agent framework is only ever invoked when the key is present. -/
theorem cli_main_exit_codes (args : Args) (key : Bool) :
    (args.threads = true → cli_main args key = ⟨0, some .listThreads, false⟩) ∧
    (args.threads = false → args.clear_threads = true →
      cli_main args key = ⟨0, some (.clearThreads args.thread), false⟩) ∧
    (args.threads = false → args.clear_threads = false → key = false →
      cli_main args key = ⟨1, none, false⟩) ∧
    (args.threads = false → args.clear_threads = false →
      args.analyze = false → args.write = false →
      (cli_main args key).exitCode = 1) ∧
    ((cli_main args key).agentInvoked = true → key = true) := by
  obtain ⟨t, ct, a, w, th⟩ := args
  cases t <;> cases ct <;> cases key <;> cases a <;> cases w <;>
    simp [cli_main]

/-- C9 witness: the threads path exits 0 with no key, and a key-less
invocation with both work flags exits 1 before invoking the agent. -/
theorem cli_main_exit_codes_witness :
    cli_main ⟨true, false, false, false, none⟩ false =
      ⟨0, some .listThreads, false⟩ ∧
    cli_main ⟨false, false, true, true, none⟩ false = ⟨1, none, false⟩ :=
  ⟨(cli_main_exit_codes ⟨true, false, false, false, none⟩ false).1 rfl,
    (cli_main_exit_codes ⟨false, false, true, true, none⟩ false).2.2.1
      rfl rfl rfl⟩

/-- C10: `create_commit` works on the stripped message: a message that
strips to empty yields the empty-message error with no subprocess
spawned, and otherwise the string passed to `git commit -m` is exactly
the stripped message. -/
theorem create_commit_strips (message : String)
    (g : String → SubprocOutcome) :
    (pyStrip message = "" →
      create_commit message g =
        ⟨false, none, none, some emptyCommitMsgErr, none⟩) ∧
    (pyStrip message ≠ "" →
      (create_commit message g).committedMessage = some (pyStrip message)) := by
  constructor
  · intro h
    simp [create_commit, h]
  · intro h
    cases hg : g (pyStrip message) <;> simp [create_commit, h, hg]

/-- C10 witness: the message with surrounding whitespace is committed
stripped, and a whitespace-only message is rejected with no subprocess. -/
theorem create_commit_strips_witness :
    (create_commit ("  fix  ") (fun _ => .ok ("done"))).committedMessage =
        some ("fix") ∧
    create_commit ("   ") (fun _ => .ok ("done")) =
      ⟨false, none, none, some emptyCommitMsgErr, none⟩ := by
  constructor
  · rw [(create_commit_strips ("  fix  ") (fun _ => .ok ("done"))).2 (by decide)]
    decide
  · exact (create_commit_strips ("   ") (fun _ => .ok ("done"))).1 (by decide)

end CommitCritic
